import Mathlib

/-!
Verification of the picker2 prediction backend.

This development shallowly embeds the two core subsystems of the repository:
the rate-governed request scheduler (`src/services/OpenWeatherAPI.ts` and
`src/services/MySportsFeedsAPI.ts`, identical up to quota and delay
parameters) and the prediction engine (`src/services/PredictionEngine.ts`).
JavaScript numbers are modelled as rationals (`ℚ`); every arithmetic
operation appearing in the embedded code paths is exact in IEEE doubles at
the concrete inputs used in the counterexamples and witnesses below, so no
conclusion rests on float rounding.  `Math.round` is `⌊x + 1/2⌋` (JS rounds
half toward positive infinity).  Slots that the source fills with
non-numeric or non-finite values (the un-awaited weather-impact Promise
and the NaN it spreads into the metrics) are `Option ℚ` with `none` for
the non-number, and each use site reproduces the JS behaviour on them.
-/

namespace Picker

/-- JS `Math.round`: round half toward positive infinity. -/
def jsRound (x : ℚ) : ℚ := ((⌊x + 1/2⌋ : ℤ) : ℚ)

/-! ## Data model (src/types, fields read by the engine) -/

/-- Per-team statistics snapshot (`TeamStats`); fields the engine never
reads (passing/rushing splits, turnovers, penalties, time of possession)
are omitted. -/
structure TeamStats where
  teamId : String
  gamesPlayed : ℚ
  wins : ℚ
  losses : ℚ
  ties : ℚ
  pointsFor : ℚ
  pointsAgainst : ℚ
  totalYards : ℚ
  totalYardsAllowed : ℚ
  takeaways : ℚ
  sacks : ℚ
  thirdDownPercentage : ℚ
  thirdDownPercentageAllowed : ℚ
  redZonePercentage : ℚ
  redZonePercentageAllowed : ℚ

/-- Injury status union from the source
(`'questionable' | 'doubtful' | 'out' | 'injured-reserve' | 'pup' | 'healthy'`);
`pup` is the source spelling of physically-unable-to-perform. -/
inductive InjuryStatus where
  | questionable
  | doubtful
  | out
  | injuredReserve
  | pup
  | healthy
deriving DecidableEq

structure PlayerInjury where
  playerId : String
  teamId : String
  position : String
  status : InjuryStatus

/-- Weather reading (`GameWeather`); fields the impact score never reads
(wind direction, UV index, timestamps) are omitted. -/
structure GameWeather where
  temperature : ℚ
  feelsLike : ℚ
  humidity : ℚ
  windSpeed : ℚ
  precipitation : ℚ
  visibility : ℚ
  conditions : String

structure NFLTeam where
  id : String
  name : String
  abbreviation : String

structure NFLGame where
  id : String
  week : ℕ
  year : ℕ
  awayTeamId : String
  homeTeamId : String

/-- `config.predictionModel.homeFieldAdvantage` from `src/config`. -/
def homeFieldAdvantageConfig : ℚ := 0.03

/-! ## Weather impact (OpenWeatherAPI.getWeatherImpact, lines 211-269) -/

/-- The additive score built from the base of 50, before clamping. -/
def weatherImpactRaw (w : GameWeather) : ℚ :=
  let impact : ℚ := 50
  let impact :=
    if 50 ≤ w.temperature ∧ w.temperature ≤ 70 then impact + 20
    else if 40 ≤ w.temperature ∧ w.temperature ≤ 80 then impact + 10
    else if w.temperature < 20 ∨ 90 < w.temperature then impact - 30
    else if w.temperature < 30 ∨ 85 < w.temperature then impact - 15
    else impact
  let impact :=
    if w.windSpeed < 10 then impact + 15
    else if w.windSpeed < 20 then impact + 5
    else if 30 < w.windSpeed then impact - 25
    else if 20 < w.windSpeed then impact - 10
    else impact
  let impact :=
    if w.precipitation = 0 then impact + 15
    else if w.precipitation < 0.1 then impact + 5
    else if 0.5 < w.precipitation then impact - 20
    else if 0.1 < w.precipitation then impact - 10
    else impact
  let impact :=
    if 10 ≤ w.visibility then impact + 10
    else if w.visibility < 5 then impact - 15
    else impact
  let badConditions := ["Thunderstorm", "Snow", "Sleet", "Hail"]
  let moderateConditions := ["Rain", "Drizzle", "Mist", "Fog"]
  let impact :=
    if w.conditions ∈ badConditions then impact - 25
    else if w.conditions ∈ moderateConditions then impact - 10
    else if w.conditions = "Clear" then impact + 10
    else impact
  impact

/-- `getWeatherImpact`: the raw additive score clamped into [0, 100]
(`Math.max(0, Math.min(100, impact))`). -/
def getWeatherImpact (w : GameWeather) : ℚ :=
  max 0 (min 100 (weatherImpactRaw w))

/-! ## Injury impact (PredictionEngine.calculateInjuryImpact, lines 238-283) -/

/-- Position weight assigned inside the injury loop: 3 for offensive skill
positions, 2 for defensive positions, 1 otherwise. -/
def positionWeight (pos : String) : ℚ :=
  if pos ∈ ["QB", "RB", "WR", "TE"] then 3
  else if pos ∈ ["DE", "DT", "LB", "CB", "S"] then 2
  else 1

/-- Per-injury impact value assigned by the `switch` on status. -/
def statusImpact : InjuryStatus → ℚ
  | InjuryStatus.out => 0
  | InjuryStatus.doubtful => 25
  | InjuryStatus.questionable => 50
  | InjuryStatus.injuredReserve => 0
  | InjuryStatus.pup => 0
  | InjuryStatus.healthy => 100

/-- The loop accumulating `totalImpact` and `totalWeight`. -/
def injuryTotals (injuries : List PlayerInjury) : ℚ × ℚ :=
  injuries.foldl
    (fun acc injury =>
      (acc.1 + statusImpact injury.status * positionWeight injury.position,
       acc.2 + positionWeight injury.position))
    (0, 0)

/-- `calculateInjuryImpact`: 100 for an empty list, otherwise the rounded
weighted average (the `totalWeight > 0` ternary guard as in the source). -/
def calculateInjuryImpact (injuries : List PlayerInjury) : ℚ :=
  match injuries with
  | [] => 100
  | i :: rest =>
    let t := injuryTotals (i :: rest)
    jsRound (if 0 < t.2 then t.1 / t.2 else 100)

/-! ## Team metric calculators (PredictionEngine, lines 176-317) -/

def calculateTeamStrength (stats : Option TeamStats) : ℚ :=
  match stats with
  | none => 50
  | some s =>
    let winPercentage : ℚ := if 0 < s.gamesPlayed then s.wins / s.gamesPlayed * 100 else 50
    let pointDifferential : ℚ :=
      if 0 < s.gamesPlayed then (s.pointsFor - s.pointsAgainst) / s.gamesPlayed else 0
    let normalizedPointDiff := max 0 (min 100 (50 + pointDifferential * 2))
    jsRound (winPercentage * 0.7 + normalizedPointDiff * 0.3)

def calculateOffensivePower (stats : Option TeamStats) : ℚ :=
  match stats with
  | none => 50
  | some s =>
    if s.gamesPlayed = 0 then 50
    else
      let pointsPerGame := s.pointsFor / s.gamesPlayed
      let yardsPerGame := s.totalYards / s.gamesPlayed
      let normalizedPoints := min 100 (pointsPerGame / 30 * 100)
      let normalizedYards := min 100 (yardsPerGame / 400 * 100)
      jsRound (normalizedPoints * 0.4 + normalizedYards * 0.3 +
        s.thirdDownPercentage * 0.2 + s.redZonePercentage * 0.1)

def calculateDefensivePower (stats : Option TeamStats) : ℚ :=
  match stats with
  | none => 50
  | some s =>
    if s.gamesPlayed = 0 then 50
    else
      let pointsAllowedPerGame := s.pointsAgainst / s.gamesPlayed
      let yardsAllowedPerGame := s.totalYardsAllowed / s.gamesPlayed
      let normalizedPoints := max 0 (100 - pointsAllowedPerGame / 30 * 100)
      let normalizedYards := max 0 (100 - yardsAllowedPerGame / 400 * 100)
      let normalizedThirdDown := 100 - s.thirdDownPercentageAllowed
      let normalizedRedZone := 100 - s.redZonePercentageAllowed
      let normalizedTakeaways := min 100 (s.takeaways / s.gamesPlayed * 50)
      let normalizedSacks := min 100 (s.sacks / s.gamesPlayed * 20)
      jsRound (normalizedPoints * 0.3 + normalizedYards * 0.25 +
        normalizedThirdDown * 0.2 + normalizedRedZone * 0.15 +
        normalizedTakeaways * 0.05 + normalizedSacks * 0.05)

/-- Schedule strength is the team-strength proxy (explicit simplification
in the source). -/
def calculateScheduleStrength (stats : Option TeamStats) : ℚ :=
  match stats with
  | none => 50
  | some s => calculateTeamStrength (some s)

/-- Rest advantage is stubbed to 0 in the source. -/
def calculateRestAdvantage (stats : Option TeamStats) : ℚ :=
  match stats with
  | none => 0
  | some _ => 0

def calculateMomentum (stats : Option TeamStats) : ℚ :=
  match stats with
  | none => 50
  | some s =>
    if s.gamesPlayed < 3 then 50
    else
      let winPercentage := s.wins / s.gamesPlayed
      if 0.75 ≤ winPercentage then 90
      else if 0.6 ≤ winPercentage then 75
      else if 0.4 ≤ winPercentage then 50
      else if 0.25 ≤ winPercentage then 25
      else 10

/-- Per-team metrics record.  The `weatherImpact` and `overall` slots are
`Option ℚ` because the source puts non-numbers in them for every non-null
weather reading: `getWeatherImpact` is `async`, `calculateWeatherImpact`
(line 286) returns its Promise without awaiting it, so the `weatherImpact`
slot holds a Promise object and `overall` (line 153-172, arithmetic on that
slot) is NaN.  `none` models such a non-numeric/non-finite slot value;
every numeric use site reproduces the JS behaviour on it (arithmetic gives
NaN, ordered comparisons are false). -/
structure PredictionMetrics where
  teamStrength : ℚ
  offensivePower : ℚ
  defensivePower : ℚ
  injuryImpact : ℚ
  weatherImpact : Option ℚ
  scheduleStrength : ℚ
  homeFieldAdvantage : ℚ
  restAdvantage : ℚ
  momentum : ℚ
  overall : Option ℚ

/-- `calculateTeamMetrics` (lines 137-174).  For a non-null weather reading
the source assigns `weatherImpact` the un-awaited Promise returned by
`calculateWeatherImpact` (the resolved 0-100 score is never observed
anywhere), modelled `none`; `Math.round` of the `overall` sum is then NaN,
also modelled `none`.  With a null reading `weatherImpact` is the number 50
and `overall` is the finite rounded blend. -/
def calculateTeamMetrics (stats : Option TeamStats) (injuries : List PlayerInjury)
    (weather : Option GameWeather) (isHomeTeam : Bool) : PredictionMetrics :=
  let teamStrength := calculateTeamStrength stats
  let offensivePower := calculateOffensivePower stats
  let defensivePower := calculateDefensivePower stats
  let injuryImpact := calculateInjuryImpact injuries
  let weatherImpact : Option ℚ := match weather with
    | some _ => none
    | none => some 50
  let scheduleStrength := calculateScheduleStrength stats
  let homeFieldAdvantage := if isHomeTeam then homeFieldAdvantageConfig * 100 else 0
  let restAdvantage := calculateRestAdvantage stats
  let momentum := calculateMomentum stats
  let overall : Option ℚ := match weatherImpact with
    | some w => some (jsRound (
        teamStrength * 0.25 + offensivePower * 0.20 + defensivePower * 0.20 +
        injuryImpact * 0.15 + w * 0.10 + scheduleStrength * 0.10))
    | none => none
  { teamStrength := teamStrength
    offensivePower := offensivePower
    defensivePower := defensivePower
    injuryImpact := injuryImpact
    weatherImpact := weatherImpact
    scheduleStrength := scheduleStrength
    homeFieldAdvantage := homeFieldAdvantage
    restAdvantage := restAdvantage
    momentum := momentum
    overall := overall }

/-- `calculateOverallMetrics` (lines 319-335): element-wise rounded
average.  Averaging two non-numeric `weatherImpact` slots (or a Promise
and a number) concatenates/propagates into NaN after the division in JS,
and averaging a NaN `overall` is NaN: both are `none` here. -/
def calculateOverallMetrics (a h : PredictionMetrics) : PredictionMetrics :=
  { teamStrength := jsRound ((a.teamStrength + h.teamStrength) / 2)
    offensivePower := jsRound ((a.offensivePower + h.offensivePower) / 2)
    defensivePower := jsRound ((a.defensivePower + h.defensivePower) / 2)
    injuryImpact := jsRound ((a.injuryImpact + h.injuryImpact) / 2)
    weatherImpact := match a.weatherImpact, h.weatherImpact with
      | some x, some y => some (jsRound ((x + y) / 2))
      | _, _ => none
    scheduleStrength := jsRound ((a.scheduleStrength + h.scheduleStrength) / 2)
    homeFieldAdvantage := h.homeFieldAdvantage
    restAdvantage := jsRound ((a.restAdvantage + h.restAdvantage) / 2)
    momentum := jsRound ((a.momentum + h.momentum) / 2)
    overall := match a.overall, h.overall with
      | some x, some y => some (jsRound ((x + y) / 2))
      | _, _ => none }

/-- `calculateWinProbabilities` (lines 337-363).  The bases start from the
`overall` slots: when either is NaN (every game with a non-null weather
reading) all the following arithmetic is NaN and both returned
probabilities are non-finite — `none` here.  When both are finite numbers
the source still divides by `awayBase + homeBase` unguarded, so a zero
total also produces a non-finite pair (`none`); otherwise the finite pair
is returned.  The third parameter is accepted and unused exactly as in the
source. -/
def calculateWinProbabilities (awayMetrics homeMetrics overallMetrics : PredictionMetrics) :
    Option (ℚ × ℚ) :=
  match awayMetrics.overall, homeMetrics.overall with
  | some ao, some ho =>
    let awayBase := ao + awayMetrics.restAdvantage +
      (awayMetrics.momentum - 50) * 0.1
    let homeBase := ho + homeMetrics.homeFieldAdvantage +
      homeMetrics.restAdvantage + (homeMetrics.momentum - 50) * 0.1
    let total := awayBase + homeBase
    if total = 0 then none
    else
      let awayWinProbability := jsRound (awayBase / total * 100)
      some (awayWinProbability, 100 - awayWinProbability)
  | _, _ => none

inductive Confidence where
  | high
  | medium
  | low
deriving DecidableEq

/-- `determineConfidence` (lines 365-371). -/
def determineConfidence (awayProbability homeProbability : ℚ) : Confidence :=
  let probabilityDiff := |awayProbability - homeProbability|
  if 25 ≤ probabilityDiff then Confidence.high
  else if 15 ≤ probabilityDiff then Confidence.medium
  else Confidence.low

inductive Recommendation where
  | away
  | home
  | none
deriving DecidableEq

/-- `determineRecommendation` (lines 373-383). -/
def determineRecommendation (awayProbability homeProbability : ℚ)
    (confidence : Confidence) : Recommendation :=
  if confidence = Confidence.low then Recommendation.none
  else if homeProbability < awayProbability then Recommendation.away
  else if awayProbability < homeProbability then Recommendation.home
  else Recommendation.none

/-- `generateFactors` (lines 385-445): ordered list of explanatory strings
triggered by fixed thresholds. -/
def generateFactors (awayMetrics homeMetrics : PredictionMetrics)
    (weather : Option GameWeather) (awayTeam homeTeam : NFLTeam) : List String :=
  let factors : List String := []
  let factors :=
    if homeMetrics.teamStrength + 10 < awayMetrics.teamStrength then
      factors ++ [awayTeam.name ++ " has significantly stronger overall team performance"]
    else if awayMetrics.teamStrength + 10 < homeMetrics.teamStrength then
      factors ++ [homeTeam.name ++ " has significantly stronger overall team performance"]
    else factors
  let factors :=
    if homeMetrics.offensivePower + 15 < awayMetrics.offensivePower then
      factors ++ [awayTeam.name ++ " has superior offensive firepower"]
    else if awayMetrics.offensivePower + 15 < homeMetrics.offensivePower then
      factors ++ [homeTeam.name ++ " has superior offensive firepower"]
    else factors
  let factors :=
    if homeMetrics.defensivePower + 15 < awayMetrics.defensivePower then
      factors ++ [awayTeam.name ++ " has stronger defensive unit"]
    else if awayMetrics.defensivePower + 15 < homeMetrics.defensivePower then
      factors ++ [homeTeam.name ++ " has stronger defensive unit"]
    else factors
  let factors :=
    if awayMetrics.injuryImpact < homeMetrics.injuryImpact - 20 then
      factors ++ [awayTeam.name ++ " dealing with significant injuries"]
    else if homeMetrics.injuryImpact < awayMetrics.injuryImpact - 20 then
      factors ++ [homeTeam.name ++ " dealing with significant injuries"]
    else factors
  let factors :=
    match weather with
    | some w =>
      -- the source compares `homeMetrics.weatherImpact >
      -- awayMetrics.weatherImpact`; on the non-numeric slots that JS
      -- comparison is false, so the away name is picked
      let weatherFavorsHome : Bool :=
        match homeMetrics.weatherImpact, awayMetrics.weatherImpact with
        | some hw, some aw => decide (aw < hw)
        | _, _ => false
      let factors :=
        if w.conditions = "Rain" ∨ w.conditions = "Snow" then
          factors ++ ["Weather conditions may favor " ++
            (if weatherFavorsHome then homeTeam.name else awayTeam.name)]
        else factors
      if 20 < w.windSpeed then factors ++ ["High winds may impact passing game"]
      else factors
    | none => factors
  let factors :=
    if 0 < homeMetrics.homeFieldAdvantage then
      factors ++ [homeTeam.name ++ " benefits from home field advantage"]
    else factors
  let factors :=
    if homeMetrics.momentum + 20 < awayMetrics.momentum then
      factors ++ [awayTeam.name ++ " has strong momentum coming into this game"]
    else if awayMetrics.momentum + 20 < homeMetrics.momentum then
      factors ++ [homeTeam.name ++ " has strong momentum coming into this game"]
    else factors
  factors

/-- Prediction record (`GamePrediction`).  `winProbabilities = none` models
the non-finite probability pair produced by `calculateWinProbabilities`
when either team's `overall` is NaN (every non-null weather reading) or
the adjusted total is 0; in those cases the JS comparisons on NaN are all
false, so the confidence falls through to `low` and the recommendation to
`none`, which the constructions below reproduce. -/
structure GamePrediction where
  id : String
  gameId : String
  week : ℕ
  year : ℕ
  awayTeamId : String
  homeTeamId : String
  winProbabilities : Option (ℚ × ℚ)
  confidence : Confidence
  recommendation : Recommendation
  awayMetrics : PredictionMetrics
  homeMetrics : PredictionMetrics
  overallMetrics : PredictionMetrics
  factors : List String

/-- `predictGame` (lines 52-119).  The weather lookup (an I/O call whose
failures are caught and turned into `null` inside `getGameWeather`) is
passed in as the `weather` argument.  The only `throw` in the function is
the team lookup failure, modelled as `Except.error`. -/
def predictGame (game : NFLGame) (teamStats : List TeamStats)
    (injuries : List PlayerInjury) (teams : List NFLTeam)
    (weather : Option GameWeather) : Except String GamePrediction :=
  match teams.find? (fun t => t.id = game.awayTeamId),
        teams.find? (fun t => t.id = game.homeTeamId) with
  | some awayTeam, some homeTeam =>
    let awayStats := teamStats.find? (fun s => s.teamId = game.awayTeamId)
    let homeStats := teamStats.find? (fun s => s.teamId = game.homeTeamId)
    let awayInjuries := injuries.filter (fun i => i.teamId = game.awayTeamId)
    let homeInjuries := injuries.filter (fun i => i.teamId = game.homeTeamId)
    let awayMetrics := calculateTeamMetrics awayStats awayInjuries weather false
    let homeMetrics := calculateTeamMetrics homeStats homeInjuries weather true
    let overallMetrics := calculateOverallMetrics awayMetrics homeMetrics
    let probs := calculateWinProbabilities awayMetrics homeMetrics overallMetrics
    let confidence := match probs with
      | some (a, h) => determineConfidence a h
      | none => Confidence.low
    let recommendation := match probs with
      | some (a, h) => determineRecommendation a h confidence
      | none => Recommendation.none
    Except.ok
      { id := "pred_" ++ game.id
        gameId := game.id
        week := game.week
        year := game.year
        awayTeamId := game.awayTeamId
        homeTeamId := game.homeTeamId
        winProbabilities := probs
        confidence := confidence
        recommendation := recommendation
        awayMetrics := awayMetrics
        homeMetrics := homeMetrics
        overallMetrics := overallMetrics
        factors := generateFactors awayMetrics homeMetrics weather awayTeam homeTeam }
  | _, _ => Except.error ("Team not found for game " ++ game.id)

/-- `generatePredictions` (lines 22-50): the per-game `try`/`catch` loop.
A failed game is logged and skipped; the loop continues with the rest.
The `weather` oracle gives each game the (already failure-caught) weather
lookup result used by `predictGame`. -/
def generatePredictions (games : List NFLGame) (teamStats : List TeamStats)
    (injuries : List PlayerInjury) (teams : List NFLTeam)
    (weather : NFLGame → Option GameWeather) : List GamePrediction :=
  games.foldl
    (fun predictions game =>
      match predictGame game teamStats injuries teams (weather game) with
      | Except.ok p => predictions ++ [p]
      | Except.error _ => predictions)
    []

/-! ## Rate-governed request scheduler
(`OpenWeatherAPI.rateLimitRequest`/`processQueue`, lines 39-91, and the
textually identical `MySportsFeedsAPI` pair; `limit` is the provider's
`config.*.rateLimit`, `delay` the fixed inter-request pause, 200 ms for
weather and 100 ms for statistics.)

The scheduler is modelled as a labelled transition system over the
per-instance mutable state (`rateLimitQueue`, `isProcessingQueue`,
`requestCount`, `resetTime`) plus a clock `now` (`Date.now()`, in ms) and a
log of executions.  Events: `submit id dt` is a `rateLimitRequest` call
arriving `dt` ms after the previous event (it pushes the unit and invokes
`processQueue`, which returns at once when a drain is already active);
`drain dur` is one iteration of the active drain loop's `while` body whose
unit of work takes `dur` ms; `finish` is the active drain loop observing an
empty queue and clearing `isProcessingQueue`.  Sleeps (`setTimeout`) are
modelled as advancing the clock by exactly the requested amount. -/

structure LogEntry where
  unit : ℕ
  startTime : ℕ
  count : ℕ
  window : ℕ
deriving DecidableEq

structure SchedulerState where
  queue : List ℕ
  isProcessingQueue : Bool
  requestCount : ℕ
  resetTime : ℕ
  now : ℕ
  executed : List LogEntry
  submitted : List ℕ
deriving DecidableEq

/-- Constructor state: empty queue, no active drain, zero count,
`resetTime = Date.now() + 60000`. -/
def initState (t0 : ℕ) : SchedulerState :=
  { queue := []
    isProcessingQueue := false
    requestCount := 0
    resetTime := t0 + 60000
    now := t0
    executed := []
    submitted := [] }

/-- One iteration of the drain loop body (lines 61-88), flattened over its
two sequential `if`s: (1) if the minute has passed, reset the counter and
start a fresh window ending 60 s from now; (2) if the counter has reached
the quota, sleep until the window end, zero the counter and advance the
window; then shift the oldest unit, increment the counter, execute the unit
(taking `dur` ms) and sleep the fixed inter-request `delay`.  When branch
(1) fires with `limit = 0` the freshly reset counter still fails the quota
check, so both updates compose (the first `if limit = 0` branch below). -/
def drainOne (limit delay dur : ℕ) (s : SchedulerState) : SchedulerState :=
  match s.queue with
  | [] => s
  | u :: rest =>
    if s.resetTime ≤ s.now then
      if limit = 0 then
        let w := s.now + 60000
        { queue := rest
          isProcessingQueue := s.isProcessingQueue
          requestCount := 1
          resetTime := w + 60000
          now := w + dur + delay
          executed := s.executed ++ [⟨u, w, 1, w + 60000⟩]
          submitted := s.submitted }
      else
        { queue := rest
          isProcessingQueue := s.isProcessingQueue
          requestCount := 1
          resetTime := s.now + 60000
          now := s.now + dur + delay
          executed := s.executed ++ [⟨u, s.now, 1, s.now + 60000⟩]
          submitted := s.submitted }
    else if limit ≤ s.requestCount then
      { queue := rest
        isProcessingQueue := s.isProcessingQueue
        requestCount := 1
        resetTime := s.resetTime + 60000
        now := s.resetTime + dur + delay
        executed := s.executed ++ [⟨u, s.resetTime, 1, s.resetTime + 60000⟩]
        submitted := s.submitted }
    else
      { queue := rest
        isProcessingQueue := s.isProcessingQueue
        requestCount := s.requestCount + 1
        resetTime := s.resetTime
        now := s.now + dur + delay
        executed := s.executed ++ [⟨u, s.now, s.requestCount + 1, s.resetTime⟩]
        submitted := s.submitted }

inductive SchedulerEvent where
  | submit (id : ℕ) (dt : ℕ)
  | drain (dur : ℕ)
  | finish

/-- One transition.  `submit` pushes onto `rateLimitQueue` and calls
`processQueue`, which is a no-op when `isProcessingQueue` is already set
and otherwise marks the drain active (the queue is non-empty right after
the push, so the length guard never fires here).  `drain` runs one loop
iteration of the single active drain; `finish` ends the drain when the
queue has emptied. -/
def schedStep (limit delay : ℕ) (s : SchedulerState) : SchedulerEvent → SchedulerState
  | SchedulerEvent.submit id dt =>
    let s := { s with
      now := s.now + dt
      queue := s.queue ++ [id]
      submitted := s.submitted ++ [id] }
    if s.isProcessingQueue then s else { s with isProcessingQueue := true }
  | SchedulerEvent.drain dur =>
    if s.isProcessingQueue then drainOne limit delay dur s else s
  | SchedulerEvent.finish =>
    if s.isProcessingQueue && s.queue.isEmpty then
      { s with isProcessingQueue := false }
    else s

/-- A scheduler run: fold the events from the constructor state. -/
def schedRun (limit delay t0 : ℕ) (events : List SchedulerEvent) : SchedulerState :=
  events.foldl (schedStep limit delay) (initState t0)

/-! ## Forecast selection (OpenWeatherAPI.getForecast, lines 138-209) -/

/-- One timestamped entry of the provider's forecast list; `dt` is the
forecast timestamp in ms (`forecast.dt * 1000`), `payload` stands for the
rest of the record. -/
structure ForecastPoint where
  dt : ℤ
  payload : ℕ
deriving DecidableEq

/-- One iteration of the closest-forecast loop: the accumulator holds
`closestForecast` with its `smallestDiff`; `none` is the initial
`closestForecast = null` / `smallestDiff = Infinity` state, which the first
entry always replaces.  A later entry replaces the held one only when its
difference is strictly smaller (`diff < smallestDiff`). -/
def selStep (gameTime : ℤ) (acc : Option (ForecastPoint × ℤ)) (fc : ForecastPoint) :
    Option (ForecastPoint × ℤ) :=
  let diff := |fc.dt - gameTime|
  match acc with
  | none => some (fc, diff)
  | some (b, d) => if diff < d then some (fc, diff) else some (b, d)

/-- The loop over `response.data.list` selecting the entry closest to
kickoff. -/
def selectClosest (gameTime : ℤ) (list : List ForecastPoint) : Option ForecastPoint :=
  (list.foldl (selStep gameTime) none).map Prod.fst

/-- `getForecast`, reduced to its decision structure: `none` when the team
has no stadium coordinates; `none` when the game is more than 120 hours
away (`hoursUntilGame > 120`, i.e. `gameTime - now > 432000000` ms — the
source compares the exact real quotient by 3 600 000); otherwise the
closest entry of the fetched forecast list (`none` for an empty list,
matching the source's `closestForecast = null` fall-through). -/
def getForecast (hasCoordinates : Bool) (now gameTime : ℤ)
    (list : List ForecastPoint) : Option ForecastPoint :=
  if !hasCoordinates then none
  else if 432000000 < gameTime - now then none
  else selectClosest gameTime list

/-! ## Concrete inputs used by counterexamples and witnesses -/

/-- An extreme weather reading: every additive branch penalizes, the raw
score is 50 − 30 − 25 − 20 − 15 − 25 = −65, clamped to 0. -/
def extremeWeather : GameWeather :=
  { temperature := -40
    feelsLike := -40
    humidity := 0
    windSpeed := 100
    precipitation := 1
    visibility := 0
    conditions := "Thunderstorm" }

/-- A perfectly benign weather reading (raw additive score 120, clamped
impact 100): even ideal weather poisons a prediction, because the score's
Promise — not its value — reaches the metrics. -/
def clearWeather : GameWeather :=
  { temperature := 65
    feelsLike := 65
    humidity := 40
    windSpeed := 5
    precipitation := 0
    visibility := 10
    conditions := "Clear" }

/-- Away metrics of a game that has a (benign) weather reading: the
un-awaited weather impact makes `overall` NaN (`none`). -/
def weatheredAwayMetrics : PredictionMetrics :=
  calculateTeamMetrics none [] (some clearWeather) false

/-- The home-side counterpart of `weatheredAwayMetrics`. -/
def weatheredHomeMetrics : PredictionMetrics :=
  calculateTeamMetrics none [] (some clearWeather) true

/-- A stats snapshot with no games played; all counting stats zero. -/
def zeroGamesStats : TeamStats :=
  { teamId := "fresh"
    gamesPlayed := 0
    wins := 0
    losses := 0
    ties := 0
    pointsFor := 0
    pointsAgainst := 0
    totalYards := 0
    totalYardsAllowed := 0
    takeaways := 0
    sacks := 0
    thirdDownPercentage := 0
    thirdDownPercentageAllowed := 0
    redZonePercentage := 0
    redZonePercentageAllowed := 0 }

/-- Metrics of a team with no stats record and no injuries (every
sub-score neutral): overall round(57.5) = 58. -/
def neutralAwayMetrics : PredictionMetrics :=
  calculateTeamMetrics none [] none false

/-- The home-side counterpart of `neutralAwayMetrics` (overall 58,
home-field advantage 3). -/
def neutralHomeMetrics : PredictionMetrics :=
  calculateTeamMetrics none [] none true

/-! # Theorems -/

/-- C6: for every weather reading — extreme inputs included — the derived
weather-impact score is the base-50 additive score clamped into [0, 100]:
it is never negative and never exceeds 100; at temperature −40 and wind
speed 100 (with heavy precipitation, zero visibility and a thunderstorm
label) the clamp is exercised and the score is exactly 0. -/
theorem weather_impact_clamped :
    (∀ w : GameWeather,
      getWeatherImpact w = max 0 (min 100 (weatherImpactRaw w)) ∧
      0 ≤ getWeatherImpact w ∧ getWeatherImpact w ≤ 100) ∧
    getWeatherImpact extremeWeather = 0 := by
  constructor
  · intro w
    exact ⟨rfl, le_max_left _ _, max_le (by norm_num) (min_le_left _ _)⟩
  · norm_num +decide [getWeatherImpact, weatherImpactRaw, extremeWeather, min_def, max_def]

/-- C9: a stats snapshot with `gamesPlayed = 0` takes the guard branch of
both power calculators before any division, yielding exactly 50 for the
offensive-power and defensive-power sub-scores. -/
theorem zero_games_power_neutral (s : TeamStats) (h : s.gamesPlayed = 0) :
    calculateOffensivePower (some s) = 50 ∧ calculateDefensivePower (some s) = 50 := by
  constructor <;> simp [calculateOffensivePower, calculateDefensivePower, h]

/-- Witness for C9 at a concrete zero-games snapshot. -/
theorem zero_games_power_neutral_witness :
    zeroGamesStats.gamesPlayed = 0 ∧
    calculateOffensivePower (some zeroGamesStats) = 50 ∧
    calculateDefensivePower (some zeroGamesStats) = 50 :=
  ⟨rfl, zero_games_power_neutral zeroGamesStats rfl⟩

/-- C5: the confidence tier thresholds are exact on the absolute
probability gap of an integer probability pair: gap ≥ 25 is `high`
(25 included), 15 ≤ gap < 25 is `medium` (15 included), gap ≤ 14 is
`low`. -/
theorem confidence_thresholds_exact (a b : ℤ) :
    (determineConfidence (a : ℚ) (b : ℚ) = Confidence.high ↔ 25 ≤ |a - b|) ∧
    (determineConfidence (a : ℚ) (b : ℚ) = Confidence.medium ↔
      15 ≤ |a - b| ∧ |a - b| < 25) ∧
    (determineConfidence (a : ℚ) (b : ℚ) = Confidence.low ↔ |a - b| ≤ 14) := by
  have hd : |(a : ℚ) - (b : ℚ)| = ((|a - b| : ℤ) : ℚ) := by push_cast; ring
  have h25 : ((25 : ℚ) ≤ ((|a - b| : ℤ) : ℚ)) ↔ 25 ≤ |a - b| := by exact_mod_cast Iff.rfl
  have h15 : ((15 : ℚ) ≤ ((|a - b| : ℤ) : ℚ)) ↔ 15 ≤ |a - b| := by exact_mod_cast Iff.rfl
  simp only [determineConfidence, hd]
  split_ifs with h1 h2
  · rw [h25] at h1
    refine ⟨by simp [h1], by simp; omega, by simp; omega⟩
  · rw [h15] at h2
    rw [h25] at h1
    refine ⟨by simp [h1], by simp; omega, by simp; omega⟩
  · rw [h15] at h2
    rw [h25] at h1
    refine ⟨by simp; omega, by simp; omega, by simp; omega⟩

/-- The injury loop accumulates exactly the weighted sums: folding from an
arbitrary start adds the mapped sums componentwise. -/
theorem injuryTotals_foldl (l : List PlayerInjury) (p : ℚ × ℚ) :
    l.foldl
      (fun acc injury =>
        (acc.1 + statusImpact injury.status * positionWeight injury.position,
         acc.2 + positionWeight injury.position)) p =
      (p.1 + (l.map fun i => statusImpact i.status * positionWeight i.position).sum,
       p.2 + (l.map fun i => positionWeight i.position).sum) := by
  induction l generalizing p with
  | nil => simp
  | cons x xs ih =>
    simp only [List.foldl_cons, List.map_cons, List.sum_cons, ih]
    rw [Prod.mk.injEq]
    constructor <;> ring

/-- Every position weight is at least 1. -/
theorem positionWeight_ge_one (pos : String) : 1 ≤ positionWeight pos := by
  unfold positionWeight
  split_ifs <;> norm_num

/-- The accumulated total weight of a non-empty injury list is positive. -/
theorem totalWeight_pos (x : PlayerInjury) (xs : List PlayerInjury) :
    0 < ((x :: xs).map fun i => positionWeight i.position).sum := by
  simp only [List.map_cons, List.sum_cons]
  have hx : (1 : ℚ) ≤ positionWeight x.position := positionWeight_ge_one _
  have hxs : 0 ≤ (xs.map fun i => positionWeight i.position).sum := by
    apply List.sum_nonneg
    intro y hy
    obtain ⟨i, _, rfl⟩ := List.mem_map.mp hy
    linarith [positionWeight_ge_one i.position]
  linarith

/-- C4: the injury-impact score is the rounded weighted average of the
per-injury impact values (0 for `out`/`injured-reserve`/`pup`, 25 for
`doubtful`, 50 for `questionable`, 100 otherwise) with weight 3 for
offensive skill positions, 2 for defensive positions, 1 otherwise; the
empty list yields exactly 100 and a single out-status quarterback yields
exactly 0. -/
theorem injury_impact_weighted_average :
    (∀ injuries : List PlayerInjury, injuries ≠ [] →
      calculateInjuryImpact injuries =
        jsRound
          ((injuries.map fun i => statusImpact i.status * positionWeight i.position).sum /
           (injuries.map fun i => positionWeight i.position).sum)) ∧
    calculateInjuryImpact [] = 100 ∧
    calculateInjuryImpact [⟨"p9", "t9", "QB", InjuryStatus.out⟩] = 0 := by
  refine ⟨?_, rfl, ?_⟩
  · intro injuries hne
    match injuries with
    | [] => exact absurd rfl hne
    | x :: xs =>
      simp only [calculateInjuryImpact, injuryTotals, injuryTotals_foldl]
      rw [if_pos]
      · simp
      · simpa using totalWeight_pos x xs
  · norm_num +decide [calculateInjuryImpact, injuryTotals, statusImpact, positionWeight, jsRound]

/-- Counterexample for C4 as literally stated: for a doubtful defensive
end (impact 25, weight 2) and a questionable kicker (impact 50, weight 1)
the weighted average is 100/3, but the source rounds (`Math.round`) and
returns 33, which is not the weighted average. -/
theorem injury_impact_rounding_counterexample :
    calculateInjuryImpact
        [⟨"p2", "home", "DE", InjuryStatus.doubtful⟩,
         ⟨"p3", "home", "K", InjuryStatus.questionable⟩] = 33 ∧
    (([(⟨"p2", "home", "DE", InjuryStatus.doubtful⟩ : PlayerInjury),
        ⟨"p3", "home", "K", InjuryStatus.questionable⟩].map
          fun i => statusImpact i.status * positionWeight i.position).sum /
      ([(⟨"p2", "home", "DE", InjuryStatus.doubtful⟩ : PlayerInjury),
        ⟨"p3", "home", "K", InjuryStatus.questionable⟩].map
          fun i => positionWeight i.position).sum) = 100 / 3 ∧
    (33 : ℚ) ≠ 100 / 3 := by
  refine ⟨?_, ?_, by norm_num⟩ <;>
    norm_num +decide [calculateInjuryImpact, injuryTotals, statusImpact,
      positionWeight, jsRound]

/-- Witness for C4's universally quantified part at a one-element list. -/
theorem injury_impact_weighted_average_witness :
    calculateInjuryImpact [⟨"p8", "t8", "WR", InjuryStatus.doubtful⟩] =
      jsRound
        (([(⟨"p8", "t8", "WR", InjuryStatus.doubtful⟩ : PlayerInjury)].map
            fun i => statusImpact i.status * positionWeight i.position).sum /
         (([(⟨"p8", "t8", "WR", InjuryStatus.doubtful⟩ : PlayerInjury)].map
            fun i => positionWeight i.position)).sum) :=
  injury_impact_weighted_average.1 _ (by simp)

/-- C1 (amended): whenever `calculateWinProbabilities` produces a finite
pair — which requires both `overall` metrics to be finite numbers, i.e. a
null weather reading, and the adjusted total to be nonzero — the away
probability is the rounded proportional share of the away adjusted score
(overall + rest advantage + (momentum − 50) × 0.1, home-field bonus for
the home side only), the home probability is 100 minus the away
probability, and the two sum to exactly 100.  With a non-null weather
reading the un-awaited Promise poisons both `overall` metrics to NaN and
the probabilities are non-finite (see the counterexample). -/
theorem win_probabilities_sum_100 (am hm om : PredictionMetrics) (p : ℚ × ℚ)
    (hp : calculateWinProbabilities am hm om = some p) :
    p.1 + p.2 = 100 ∧
    (∃ ao ho, am.overall = some ao ∧ hm.overall = some ho ∧
      p.1 = jsRound ((ao + am.restAdvantage + (am.momentum - 50) * 0.1) /
        ((ao + am.restAdvantage + (am.momentum - 50) * 0.1) +
         (ho + hm.homeFieldAdvantage + hm.restAdvantage +
           (hm.momentum - 50) * 0.1)) * 100)) ∧
    p.2 = 100 - p.1 := by
  cases hao : am.overall with
  | none => simp [calculateWinProbabilities, hao] at hp
  | some ao =>
    cases hho : hm.overall with
    | none => simp [calculateWinProbabilities, hao, hho] at hp
    | some ho =>
      simp only [calculateWinProbabilities, hao, hho] at hp
      split_ifs at hp
      obtain rfl := Option.some.injEq _ _ ▸ hp.symm
      exact ⟨by ring, ⟨ao, ho, rfl, rfl, rfl⟩, rfl⟩

/-- Witness for C1's amended statement at the neutral metric inputs (no
stats, no injuries, no weather reading): the pair is (49, 51) and sums to
100. -/
theorem win_probabilities_sum_100_witness :
    calculateWinProbabilities neutralAwayMetrics neutralHomeMetrics
      (calculateOverallMetrics neutralAwayMetrics neutralHomeMetrics) =
        some (49, 51) ∧ (49 : ℚ) + 51 = 100 := by
  have h : calculateWinProbabilities neutralAwayMetrics neutralHomeMetrics
      (calculateOverallMetrics neutralAwayMetrics neutralHomeMetrics) = some (49, 51) := by
    norm_num [calculateWinProbabilities, neutralAwayMetrics, neutralHomeMetrics,
      calculateTeamMetrics, calculateTeamStrength, calculateOffensivePower,
      calculateDefensivePower, calculateInjuryImpact, calculateScheduleStrength,
      calculateRestAdvantage, calculateMomentum, jsRound, homeFieldAdvantageConfig]
  exact ⟨h, (win_probabilities_sum_100 _ _ _ _ h).1⟩

/-- Counterexample for C1 as stated: any game with a non-null weather
reading — here missing stats, no injuries and perfectly benign clear
weather — never computes the claimed formula.  `calculateWeatherImpact`
returns the un-awaited Promise of the `async` `getWeatherImpact`, so both
teams' `overall` metrics are NaN (`none`) and both win probabilities are
non-finite (`none`): they do not sum to 100. -/
theorem win_probabilities_nan_counterexample :
    weatheredAwayMetrics.overall = none ∧
    weatheredHomeMetrics.overall = none ∧
    calculateWinProbabilities weatheredAwayMetrics weatheredHomeMetrics
      (calculateOverallMetrics weatheredAwayMetrics weatheredHomeMetrics) = none :=
  ⟨rfl, rfl, rfl⟩

/-- C10: for integer probabilities summing to 100 the recommendation is
`none` exactly when the confidence is `low`; under `medium` or `high`
confidence the gap is at least 15, the probabilities differ, and the
recommendation names the strictly higher side (the tie branch is
unreachable). -/
theorem recommendation_none_iff_low (a b : ℤ) (hsum : (a : ℚ) + (b : ℚ) = 100) :
    (determineRecommendation (a : ℚ) (b : ℚ) (determineConfidence (a : ℚ) (b : ℚ)) =
        Recommendation.none ↔
      determineConfidence (a : ℚ) (b : ℚ) = Confidence.low) ∧
    (determineConfidence (a : ℚ) (b : ℚ) ≠ Confidence.low →
      (determineRecommendation (a : ℚ) (b : ℚ) (determineConfidence (a : ℚ) (b : ℚ)) =
          Recommendation.away ↔ b < a) ∧
      (determineRecommendation (a : ℚ) (b : ℚ) (determineConfidence (a : ℚ) (b : ℚ)) =
          Recommendation.home ↔ a < b)) := by
  by_cases hc : determineConfidence (a : ℚ) (b : ℚ) = Confidence.low
  · refine ⟨?_, fun h => absurd hc h⟩
    simp [determineRecommendation, hc]
  · have hrec : determineRecommendation (a : ℚ) (b : ℚ)
        (determineConfidence (a : ℚ) (b : ℚ)) =
        if (b : ℚ) < (a : ℚ) then Recommendation.away
        else if (a : ℚ) < (b : ℚ) then Recommendation.home
        else Recommendation.none := by
      simp [determineRecommendation, hc]
    rcases lt_trichotomy a b with hlt | heq | hgt
    · have hltq : (a : ℚ) < (b : ℚ) := by exact_mod_cast hlt
      rw [hrec, if_neg (not_lt.mpr (le_of_lt hltq)), if_pos hltq]
      refine ⟨by simp [hc], fun _ => ⟨by simp; omega, by simp [hlt]⟩⟩
    · exfalso
      apply hc
      subst heq
      norm_num [determineConfidence]
    · have hgtq : (b : ℚ) < (a : ℚ) := by exact_mod_cast hgt
      rw [hrec, if_pos hgtq]
      refine ⟨by simp [hc], fun _ => ⟨by simp [hgt], by simp; omega⟩⟩

/-- Witness for C10 at the concrete pair (65, 35). -/
theorem recommendation_none_iff_low_witness :
    ((65 : ℤ) : ℚ) + ((35 : ℤ) : ℚ) = 100 ∧
    (determineRecommendation ((65 : ℤ) : ℚ) ((35 : ℤ) : ℚ)
        (determineConfidence ((65 : ℤ) : ℚ) ((35 : ℤ) : ℚ)) = Recommendation.none ↔
      determineConfidence ((65 : ℤ) : ℚ) ((35 : ℤ) : ℚ) = Confidence.low) :=
  ⟨by norm_num, (recommendation_none_iff_low 65 35 (by norm_num)).1⟩

/-- Invariant of the scheduler's rate-window accounting: the counter never
exceeds the quota, the window end always lies within 60 s of the clock,
the counter dominates the number of executions recorded against the
current window, no window ever records more than `limit` executions, and
every recorded execution started inside its own 60-second window at a
counter value within the quota. -/
def SchedInv (limit : ℕ) (s : SchedulerState) : Prop :=
  s.requestCount ≤ limit ∧
  s.resetTime ≤ s.now + 60000 ∧
  (s.executed.filter fun e => e.window = s.resetTime).length ≤ s.requestCount ∧
  (∀ W, (s.executed.filter fun e => e.window = W).length ≤ limit) ∧
  ∀ e ∈ s.executed, e.window ≤ s.resetTime ∧ e.count ≤ limit ∧
    e.startTime < e.window ∧ e.window ≤ e.startTime + 60000

theorem schedInv_init (limit t0 : ℕ) : SchedInv limit (initState t0) := by
  refine ⟨Nat.zero_le _, by simp [initState], by simp [initState], ?_, ?_⟩ <;>
    simp [initState]

/-- Executions recorded against a window strictly above every recorded
window are none. -/
theorem filter_window_above (l : List LogEntry) (R W : ℕ)
    (h : ∀ e ∈ l, e.window ≤ R) (hW : R < W) :
    l.filter (fun e => e.window = W) = [] := by
  rw [List.filter_eq_nil_iff]
  intro e he
  have := h e he
  simp only [decide_eq_true_eq]
  omega

/-- Length of a filtered singleton log. -/
theorem filter_singleton_length (e : LogEntry) (W : ℕ) :
    (([e] : List LogEntry).filter fun x => x.window = W).length =
      if e.window = W then 1 else 0 := by
  by_cases h : e.window = W <;> simp [List.filter_cons, h]

theorem schedInv_drainOne (limit delay dur : ℕ) (s : SchedulerState)
    (hlim : 0 < limit) (h : SchedInv limit s) :
    SchedInv limit (drainOne limit delay dur s) := by
  obtain ⟨h1, h2, h3, h4, h5⟩ := h
  rcases hq : s.queue with _ | ⟨u, rest⟩
  · simpa [drainOne, hq] using ⟨h1, h2, h3, h4, h5⟩
  · simp only [drainOne, hq]
    split_ifs with hreset hzero hquota
    · omega
    · -- the minute has passed: fresh window ending 60 s from now
      have hfresh : ∀ e ∈ s.executed, e.window ≤ s.resetTime := fun e he => (h5 e he).1
      have hnil : s.executed.filter (fun e => e.window = s.now + 60000) = [] :=
        filter_window_above _ _ _ hfresh (by omega)
      unfold SchedInv
      dsimp only
      refine ⟨by omega, by omega, ?_, ?_, ?_⟩
      · simp only [List.filter_append, List.length_append, hnil,
          filter_singleton_length, List.length_nil]
        split_ifs <;> omega
      · intro W
        simp only [List.filter_append, List.length_append, filter_singleton_length]
        by_cases hW : s.now + 60000 = W
        · rw [if_pos hW, ← hW, hnil]
          simp
          omega
        · rw [if_neg hW]
          have := h4 W
          omega
      · intro e he
        rcases List.mem_append.mp he with hold | hnew
        · obtain ⟨e1, e2, e3, e4⟩ := h5 e hold
          exact ⟨by omega, e2, e3, e4⟩
        · simp only [List.mem_singleton] at hnew
          subst hnew
          refine ⟨le_refl _, ?_, ?_, ?_⟩ <;> dsimp only <;> omega
    · -- quota reached: sleep to the window end, reset into the next window
      have hfresh : ∀ e ∈ s.executed, e.window ≤ s.resetTime := fun e he => (h5 e he).1
      have hnil : s.executed.filter (fun e => e.window = s.resetTime + 60000) = [] :=
        filter_window_above _ _ _ hfresh (by omega)
      unfold SchedInv
      dsimp only
      refine ⟨by omega, by omega, ?_, ?_, ?_⟩
      · simp only [List.filter_append, List.length_append, hnil,
          filter_singleton_length, List.length_nil]
        split_ifs <;> omega
      · intro W
        simp only [List.filter_append, List.length_append, filter_singleton_length]
        by_cases hW : s.resetTime + 60000 = W
        · rw [if_pos hW, ← hW, hnil]
          simp
          omega
        · rw [if_neg hW]
          have := h4 W
          omega
      · intro e he
        rcases List.mem_append.mp he with hold | hnew
        · obtain ⟨e1, e2, e3, e4⟩ := h5 e hold
          exact ⟨by omega, e2, e3, e4⟩
        · simp only [List.mem_singleton] at hnew
          subst hnew
          refine ⟨le_refl _, ?_, ?_, ?_⟩ <;> dsimp only <;> omega
    · -- inside the window with the quota not yet reached: plain increment
      unfold SchedInv
      dsimp only
      refine ⟨by omega, by omega, ?_, ?_, ?_⟩
      · simp only [List.filter_append, List.length_append, filter_singleton_length]
        split_ifs <;> omega
      · intro W
        simp only [List.filter_append, List.length_append, filter_singleton_length]
        have h4W := h4 W
        by_cases hW : s.resetTime = W
        · rw [if_pos hW, ← hW]
          omega
        · rw [if_neg hW]
          omega
      · intro e he
        rcases List.mem_append.mp he with hold | hnew
        · exact h5 e hold
        · simp only [List.mem_singleton] at hnew
          subst hnew
          refine ⟨le_refl _, ?_, ?_, ?_⟩ <;> dsimp only <;> omega

theorem schedInv_step (limit delay : ℕ) (s : SchedulerState) (ev : SchedulerEvent)
    (hlim : 0 < limit) (h : SchedInv limit s) :
    SchedInv limit (schedStep limit delay s ev) := by
  obtain ⟨h1, h2, h3, h4, h5⟩ := h
  cases ev with
  | submit id dt =>
    simp only [schedStep]
    split_ifs <;> exact ⟨h1, by simp; omega, h3, h4, h5⟩
  | drain dur =>
    simp only [schedStep]
    split_ifs
    · exact schedInv_drainOne limit delay dur s hlim ⟨h1, h2, h3, h4, h5⟩
    · exact ⟨h1, h2, h3, h4, h5⟩
  | finish =>
    simp only [schedStep]
    split_ifs <;> exact ⟨h1, h2, h3, h4, h5⟩

theorem schedInv_run (limit delay t0 : ℕ) (events : List SchedulerEvent)
    (hlim : 0 < limit) : SchedInv limit (schedRun limit delay t0 events) := by
  suffices hsuff : ∀ (evs : List SchedulerEvent) (s : SchedulerState),
      SchedInv limit s → SchedInv limit (evs.foldl (schedStep limit delay) s) by
    exact hsuff events (initState t0) (schedInv_init limit t0)
  intro evs
  induction evs with
  | nil => exact fun s hs => hs
  | cons ev rest ih =>
    intro s hs
    exact ih _ (schedInv_step limit delay s ev hlim hs)

/-- C2: in any run of a scheduler with positive per-minute quota `limit`,
every 60-second rate window (identified by the `resetTime` in effect when
a unit starts) sees at most `limit` units begin execution; moreover every
unit starts strictly inside its window's 60-second span and the counter
value at its execution never exceeds the quota. -/
theorem sched_rate_limit (limit delay t0 : ℕ) (events : List SchedulerEvent)
    (hlim : 0 < limit) :
    (∀ W, ((schedRun limit delay t0 events).executed.filter
        fun e => e.window = W).length ≤ limit) ∧
    ∀ e ∈ (schedRun limit delay t0 events).executed,
      e.count ≤ limit ∧ e.startTime < e.window ∧ e.window ≤ e.startTime + 60000 := by
  obtain ⟨_, _, _, h4, h5⟩ := schedInv_run limit delay t0 events hlim
  exact ⟨h4, fun e he => ⟨(h5 e he).2.1, (h5 e he).2.2.1, (h5 e he).2.2.2⟩⟩

/-- Witness for C2: a concrete run with quota 1 in which the second unit is
pushed past the first window; no window records more than one start. -/
theorem sched_rate_limit_witness :
    0 < 1 ∧
    ((schedRun 1 200 0 [SchedulerEvent.submit 7 0, SchedulerEvent.drain 10,
        SchedulerEvent.submit 8 5, SchedulerEvent.drain 10,
        SchedulerEvent.finish]).executed.filter
      fun e => e.window = 60000).length ≤ 1 :=
  ⟨by norm_num,
   (sched_rate_limit 1 200 0 [SchedulerEvent.submit 7 0, SchedulerEvent.drain 10,
      SchedulerEvent.submit 8 5, SchedulerEvent.drain 10,
      SchedulerEvent.finish] (by norm_num)).1 60000⟩

/-- The FIFO bookkeeping invariant: the submission sequence is exactly the
execution sequence followed by the still-pending queue. -/
def FifoInv (s : SchedulerState) : Prop :=
  s.submitted = s.executed.map (fun e => e.unit) ++ s.queue

theorem fifoInv_step (limit delay : ℕ) (s : SchedulerState) (ev : SchedulerEvent)
    (h : FifoInv s) : FifoInv (schedStep limit delay s ev) := by
  unfold FifoInv at h ⊢
  cases ev with
  | submit id dt =>
    simp only [schedStep]
    split_ifs <;> simp [h]
  | drain dur =>
    simp only [schedStep]
    split_ifs with hp
    · rcases hq : s.queue with _ | ⟨u, rest⟩
      · simpa [drainOne, hq] using h
      · rw [hq] at h
        simp only [drainOne, hq]
        split_ifs <;> simp [h]
    · exact h
  | finish =>
    simp only [schedStep]
    split_ifs <;> exact h

/-- C3: in any run of a scheduler, the units that began execution did so in
exactly their submission order — the execution log (in order) followed by
the still-queued units (in order) reconstructs the submission sequence, so
execution order is a prefix of submission order with no reordering. -/
theorem sched_fifo (limit delay t0 : ℕ) (events : List SchedulerEvent) :
    (schedRun limit delay t0 events).submitted =
      (schedRun limit delay t0 events).executed.map (fun e => e.unit) ++
        (schedRun limit delay t0 events).queue := by
  suffices hsuff : ∀ (evs : List SchedulerEvent) (s : SchedulerState),
      FifoInv s → FifoInv (evs.foldl (schedStep limit delay) s) by
    exact hsuff events (initState t0) (by simp [FifoInv, initState])
  intro evs
  induction evs with
  | nil => exact fun s hs => hs
  | cons ev rest ih =>
    intro s hs
    exact ih _ (fifoInv_step limit delay s ev hs)

/-- Running the closest-forecast loop from a held candidate `b` yields a
candidate that (1) is at least as close as `b` and as every scanned entry,
and (2) is either `b` itself or an entry strictly closer than `b` and
strictly closer than everything scanned before it (later ties never
replace the held candidate). -/
theorem selStep_foldl (gameTime : ℤ) (l : List ForecastPoint) (b : ForecastPoint) :
    ∃ f, l.foldl (selStep gameTime) (some (b, |b.dt - gameTime|)) =
        some (f, |f.dt - gameTime|) ∧
      |f.dt - gameTime| ≤ |b.dt - gameTime| ∧
      (∀ p ∈ l, |f.dt - gameTime| ≤ |p.dt - gameTime|) ∧
      (f = b ∨ ∃ l₁ l₂, l = l₁ ++ f :: l₂ ∧ |f.dt - gameTime| < |b.dt - gameTime| ∧
        ∀ p ∈ l₁, |f.dt - gameTime| < |p.dt - gameTime|) := by
  induction l generalizing b with
  | nil => exact ⟨b, rfl, le_refl _, by simp, Or.inl rfl⟩
  | cons x xs ih =>
    by_cases hx : |x.dt - gameTime| < |b.dt - gameTime|
    · obtain ⟨f, hfold, hle, hmin, hdisj⟩ := ih x
      refine ⟨f, ?_, ?_, ?_, ?_⟩
      · simpa [selStep, hx] using hfold
      · omega
      · intro p hp
        rcases List.mem_cons.mp hp with rfl | hp
        · omega
        · exact hmin p hp
      · rcases hdisj with rfl | ⟨l₁, l₂, hsplit, hlt, hstrict⟩
        · exact Or.inr ⟨[], xs, rfl, hx, by simp⟩
        · refine Or.inr ⟨x :: l₁, l₂, by simp [hsplit], by omega, ?_⟩
          intro p hp
          rcases List.mem_cons.mp hp with rfl | hp
          · omega
          · exact hstrict p hp
    · obtain ⟨f, hfold, hle, hmin, hdisj⟩ := ih b
      refine ⟨f, ?_, hle, ?_, ?_⟩
      · simpa [selStep, hx] using hfold
      · intro p hp
        rcases List.mem_cons.mp hp with rfl | hp
        · omega
        · exact hmin p hp
      · rcases hdisj with rfl | ⟨l₁, l₂, hsplit, hlt, hstrict⟩
        · exact Or.inl rfl
        · refine Or.inr ⟨x :: l₁, l₂, by simp [hsplit], hlt, ?_⟩
          intro p hp
          rcases List.mem_cons.mp hp with rfl | hp
          · omega
          · exact hstrict p hp

/-- The loop over a non-empty list selects the first entry of minimal
absolute timestamp difference: it splits the list around the selected
entry, with everything before it strictly farther and everything at least
as far overall. -/
theorem selectClosest_spec (gameTime : ℤ) (x : ForecastPoint) (xs : List ForecastPoint) :
    ∃ f l₁ l₂, selectClosest gameTime (x :: xs) = some f ∧
      x :: xs = l₁ ++ f :: l₂ ∧
      (∀ p ∈ x :: xs, |f.dt - gameTime| ≤ |p.dt - gameTime|) ∧
      ∀ p ∈ l₁, |f.dt - gameTime| < |p.dt - gameTime| := by
  obtain ⟨f, hfold, hle, hmin, hdisj⟩ := selStep_foldl gameTime xs x
  have hsel : selectClosest gameTime (x :: xs) = some f := by
    simp [selectClosest, selStep, hfold]
  rcases hdisj with rfl | ⟨l₁, l₂, hsplit, _, hstrict⟩
  · refine ⟨f, [], xs, hsel, rfl, ?_, by simp⟩
    intro p hp
    rcases List.mem_cons.mp hp with rfl | hp
    · omega
    · exact hmin p hp
  · refine ⟨f, x :: l₁, l₂, hsel, by simp [hsplit], ?_, ?_⟩
    · intro p hp
      rcases List.mem_cons.mp hp with rfl | hp
      · omega
      · exact hmin p hp
    · intro p hp
      rcases List.mem_cons.mp hp with rfl | hp
      · omega
      · exact hstrict p hp

/-- C7: forecast lookup skips entirely (returns the absent value) when the
game is more than 120 hours away, and otherwise returns, from a non-empty
forecast list, the first entry of minimal absolute timestamp difference to
kickoff: entries before the selected one are strictly farther, so equally
close later entries never displace the first encountered one. -/
theorem forecast_selection (hasCoordinates : Bool) (now gameTime : ℤ)
    (list : List ForecastPoint) :
    (432000000 < gameTime - now →
      getForecast hasCoordinates now gameTime list = none) ∧
    (∀ x xs, list = x :: xs → ¬432000000 < gameTime - now →
      ∃ f l₁ l₂, getForecast true now gameTime list = some f ∧
        list = l₁ ++ f :: l₂ ∧
        (∀ p ∈ list, |f.dt - gameTime| ≤ |p.dt - gameTime|) ∧
        ∀ p ∈ l₁, |f.dt - gameTime| < |p.dt - gameTime|) := by
  constructor
  · intro hfar
    unfold getForecast
    split_ifs <;> simp_all
  · intro x xs hlist hnear
    subst hlist
    obtain ⟨f, l₁, l₂, hsel, hsplit, hmin, hstrict⟩ := selectClosest_spec gameTime x xs
    exact ⟨f, l₁, l₂, by simp [getForecast, hnear, hsel], hsplit, hmin, hstrict⟩

/-- Witness for C7: a game 432000001 ms (just over 120 h) away is skipped,
and a two-entry list within the window yields a closest selection. -/
theorem forecast_selection_witness :
    getForecast true 0 432000001 [⟨7, 0⟩] = none ∧
    ∃ f l₁ l₂, getForecast true 0 100 [⟨90, 0⟩, ⟨110, 1⟩] = some f ∧
      ([⟨90, 0⟩, ⟨110, 1⟩] : List ForecastPoint) = l₁ ++ f :: l₂ ∧
      (∀ p ∈ ([⟨90, 0⟩, ⟨110, 1⟩] : List ForecastPoint),
        |f.dt - 100| ≤ |p.dt - 100|) ∧
      ∀ p ∈ l₁, |f.dt - 100| < |p.dt - 100| :=
  ⟨(forecast_selection true 0 432000001 [⟨7, 0⟩]).1 (by norm_num),
   (forecast_selection true 0 100 [⟨90, 0⟩, ⟨110, 1⟩]).2 ⟨90, 0⟩ [⟨110, 1⟩] rfl
     (by norm_num)⟩

/-- The per-game loop with an arbitrary accumulator: every successful game
appends its own prediction, every failing game is skipped, order is kept. -/
theorem generatePredictions_foldl (games : List NFLGame) (teamStats : List TeamStats)
    (injuries : List PlayerInjury) (teams : List NFLTeam)
    (weather : NFLGame → Option GameWeather) (acc : List GamePrediction) :
    games.foldl
      (fun predictions game =>
        match predictGame game teamStats injuries teams (weather game) with
        | Except.ok p => predictions ++ [p]
        | Except.error _ => predictions)
      acc =
      acc ++ games.filterMap
        (fun g => (predictGame g teamStats injuries teams (weather g)).toOption) := by
  induction games generalizing acc with
  | nil => simp
  | cons g gs ih =>
    simp only [List.foldl_cons, List.filterMap_cons]
    cases hpg : predictGame g teamStats injuries teams (weather g) with
    | ok p => simp [hpg, ih, Except.toOption]
    | error e => simp [hpg, ih, Except.toOption]

/-- C8: a batch prediction run returns exactly the per-game successes in
game order — each game contributes its own prediction when it resolves and
nothing otherwise, so one failing game never aborts the batch — and a game
fails exactly when one of its team records cannot be resolved in the
fetched team set. -/
theorem prediction_batch_isolation :
    (∀ (games : List NFLGame) (teamStats : List TeamStats)
        (injuries : List PlayerInjury) (teams : List NFLTeam)
        (weather : NFLGame → Option GameWeather),
      generatePredictions games teamStats injuries teams weather =
        games.filterMap
          (fun g => (predictGame g teamStats injuries teams (weather g)).toOption)) ∧
    (∀ (game : NFLGame) (teamStats : List TeamStats) (injuries : List PlayerInjury)
        (teams : List NFLTeam) (weather : Option GameWeather),
      (∃ err, predictGame game teamStats injuries teams weather = Except.error err) ↔
        (teams.find? (fun t => t.id = game.awayTeamId) = none ∨
         teams.find? (fun t => t.id = game.homeTeamId) = none)) := by
  constructor
  · intro games teamStats injuries teams weather
    simpa [generatePredictions] using
      generatePredictions_foldl games teamStats injuries teams weather []
  · intro game teamStats injuries teams weather
    unfold predictGame
    cases hfa : teams.find? (fun t => t.id = game.awayTeamId) with
    | none => simp [hfa]
    | some awayTeam =>
      cases hfh : teams.find? (fun t => t.id = game.homeTeamId) with
      | none => simp [hfa, hfh]
      | some homeTeam => simp [hfa, hfh]

end Picker
